import Mathlib

/-!
Shallow embedding of the NBD mount lifecycle (nova/virt/disk/mount/nbd.py),
the remote-filesystem share helpers and rsync transport
(nova/virt/libvirt/volume/remotefs.py), and the file-transfer path
normalization (nova/image/download/file.py).

Host state, randomness and subprocess outcomes are passed in explicitly;
each operation returns its result together with the list of privileged
commands it issued and the messages it merely logged.
-/

/-! ## Generic string helpers (POSIX path semantics used by the source) -/

/-- Membership of `pat` as a contiguous sublist, the semantics of the
Python `in` operator on strings. -/
def listContainsSub (pat : List Char) : List Char → Bool
  | [] => pat.isEmpty
  | c :: cs => pat.isPrefixOf (c :: cs) || listContainsSub pat cs

/-- Python `pat in s` on strings. -/
def strContains (s pat : String) : Bool :=
  listContainsSub pat.data s.data

/-- Python `s.startswith(pre)`. -/
def py_startswith (s pre : String) : Bool :=
  pre.data.isPrefixOf s.data

/-- Replace the first occurrence of a non-empty pattern `old` by `new`,
scanning left to right; auxiliary for Python `s.replace(old, new, 1)`. -/
def replFirstAux (old new : List Char) : List Char → List Char
  | [] => []
  | c :: cs =>
    if old.isPrefixOf (c :: cs) then new ++ (c :: cs).drop old.length
    else c :: replFirstAux old new cs

/-- Python `s.replace(old, new, 1)`: at most one replacement, leftmost
occurrence first; an empty `old` matches at position 0. -/
def py_replace_first (s old new : String) : String :=
  match old.data with
  | [] => String.mk (new.data ++ s.data)
  | _ :: _ => String.mk (replFirstAux old.data new.data s.data)

/-- Split a character list on a separator, Python `str.split(sep)` with a
one-character separator. -/
def splitOnChar (sep : Char) : List Char → List (List Char)
  | [] => [[]]
  | c :: cs =>
    let rest := splitOnChar sep cs
    if c = sep then [] :: rest
    else
      match rest with
      | [] => [[c]]
      | r :: rs => (c :: r) :: rs

/-- Join character lists with a separator, Python `sep.join(parts)`. -/
def intercalateChar (sep : Char) : List (List Char) → List Char
  | [] => []
  | [x] => x
  | x :: xs => x ++ sep :: intercalateChar sep xs

/-- Python `os.path.basename` on POSIX: the part after the last slash. -/
def basename (p : String) : String :=
  String.mk ((splitOnChar '/' p.data).getLastD [])

/-- Python `os.path.dirname` on POSIX: the prefix up to (and with) the last
slash, with trailing slashes stripped unless the head is all slashes. -/
def dirname (p : String) : String :=
  let base := (splitOnChar '/' p.data).getLastD []
  let head := (p.data).take (p.data.length - base.length)
  if head = [] then ""
  else if head.all (fun c => c = '/') then String.mk head
  else String.mk ((head.reverse.dropWhile (fun c => c = '/')).reverse)

/-- Python `os.path.normpath` on POSIX: collapse empty and `.` components,
resolve `..` against earlier components, keep one or exactly two leading
slashes. -/
def normpath (path : String) : String :=
  if path = "" then "."
  else
    let initialSlashes : Nat :=
      if path.data.take 1 = ['/'] then
        if path.data.take 2 = ['/', '/'] ∧ ¬ (path.data.take 3 = ['/', '/', '/']) then 2
        else 1
      else 0
    let comps := splitOnChar '/' path.data
    let newComps : List (List Char) := comps.foldl (fun acc comp =>
      if comp = [] ∨ comp = ['.'] then acc
      else if comp ≠ ['.', '.'] ∨ (initialSlashes = 0 ∧ acc = []) ∨
          (acc ≠ [] ∧ acc.getLastD [] = ['.', '.']) then acc ++ [comp]
      else acc.dropLast) []
    let res := List.replicate initialSlashes '/' ++ intercalateChar '/' newComps
    if res = [] then "." else String.mk res

/-! ## nova/image/download/file.py : FileTransfer -/

namespace FileTransfer

/-- `FileTransfer._normalize_destination`: require `path` to start with the
glance mount prefix (metadata error otherwise), then replace the first
occurrence of the glance mount by the nova mount. -/
def normalize_destination (nova_mount glance_mount path : String) :
    Except String String :=
  if py_startswith path glance_mount = false then
    Except.error ("The mount point advertised by glance: " ++ glance_mount ++
      ", does not match the URL path: " ++ path)
  else
    Except.ok (py_replace_first path glance_mount nova_mount)

end FileTransfer

/-! ## nova/virt/libvirt/volume/remotefs.py : share mount helpers -/

/-- Observable outcome of a share mount or unmount attempt: success, a
recognized busy condition downgraded to a log line, a process-execution
failure re-raised to the caller, or a failure merely logged via the
exception logger and swallowed. -/
inductive ShareResult where
  | ok : ShareResult
  | loggedBusy : ShareResult
  | raised : String → ShareResult
  | loggedException : String → ShareResult
deriving DecidableEq, Repr

/-- `mount_share`: run the privileged mount (its outcome is `mountRes`,
`some e` being a process-execution failure with text `e`); a failure whose
text mentions the busy condition is only logged, any other failure is
re-raised. -/
def mount_share (mountRes : Option String) : ShareResult :=
  match mountRes with
  | none => ShareResult.ok
  | some e =>
    if strContains e ("Device or resource busy") then ShareResult.loggedBusy
    else ShareResult.raised e

/-- `unmount_share`: run the privileged umount; a busy failure is logged at
debug level, and any other failure is logged through `LOG.exception` —
there is no re-raise on either branch. -/
def unmount_share (umountRes : Option String) : ShareResult :=
  match umountRes with
  | none => ShareResult.ok
  | some e =>
    if strContains e ("target is busy") then ShareResult.loggedBusy
    else ShareResult.loggedException e

/-! ## nova/virt/libvirt/volume/remotefs.py : RsyncDriver -/

/-- Modelled from the spec: `utils.format_remote_path` is an external helper
absent from this excerpt; per the spec it produces the `host:path`-shaped
remote address, consumed as an opaque string by the transports. -/
def format_remote_path (host path : String) : String :=
  host ++ ":" ++ path

namespace RsyncDriver

/-- `RsyncDriver.copy_file`: argument vector of the single rsync
invocation; recursive and sparse always, compression only on request. -/
def copy_file (src dst : String) (compression : Bool) : List String :=
  let args := ["rsync", "-r", "--sparse", src, dst]
  if compression then args ++ ["--compress"] else args

/-- `RsyncDriver._remove_object`: remove a file or empty directory on the
remote host by syncing against its parent, including only its base name
and excluding everything else. -/
def remove_object (src host dst : String) : List String :=
  ["rsync", "--archive", "--delete",
   "--include", basename (normpath dst),
   "--exclude", "*",
   normpath src ++ "/",
   format_remote_path host (dirname (normpath dst))]

/-- `RsyncDriver.remove_dir`: first delete the remote directory contents
with `--delete-excluded` against the empty temporary directory, then remove
the now-empty directory entry itself. Returns the argument vectors of the
two rsync invocations, in order. -/
def remove_dir (tempdir host dst : String) : List (List String) :=
  [["rsync", "--archive", "--delete-excluded",
    tempdir ++ "/",
    format_remote_path host dst],
   remove_object tempdir host dst]

end RsyncDriver

/-! ## nova/virt/disk/mount/nbd.py : NbdMount -/

/-- The host state consulted by allocation: whether the probe path
`/sys/block/nbd0` exists, the detected `nbd[0-9]+` device names, and for
each device name whether its kernel pid-file and its external lock file
exist at allocation time. -/
structure HostState where
  probe : Bool
  devices : List String
  pid : String → Bool
  lock : String → Bool

/-- Mutable state of one `NbdMount` session: claimed device path, link flag
and last error message. -/
structure NbdSession where
  device : Option String
  linked : Bool
  error : String
deriving DecidableEq, Repr

/-- A privileged command issued to the executor boundary. -/
inductive NbdCmd where
  | connect : String → String → NbdCmd
  | disconnect : String → NbdCmd
deriving DecidableEq, Repr

/-- Environment of one `_inner_get_dev` run: host state, the shuffled
device list produced by `random.shuffle`, the image path, the error text
of the connect command (empty on success), the pid-file observations of
each poll iteration, the configured `timeout_nbd`, and the error text of
the cleanup disconnect (empty on success). -/
structure NbdEnv where
  host : HostState
  shuffled : List String
  image_path : String
  connectErr : String
  pidAt : String → Nat → Bool
  timeout : Nat
  disconnectErr : String

/-- Result of `_inner_get_dev`: the returned boolean, the session after the
call, the privileged commands issued, and the messages only logged. -/
structure InnerResult where
  ret : Bool
  session : NbdSession
  cmds : List NbdCmd
  warnings : List String
deriving DecidableEq, Repr

/-- A device is unused iff it has neither a kernel pid-file nor an external
lock file. -/
def unusedDev (host : HostState) (d : String) : Bool :=
  !host.pid d && !host.lock d

/-- `NbdMount._find_unused`: walk the device list; skip devices with a
pid-file; return the first device with no pid-file and no lock file, a
pid-free but locked device being only logged as a stale-lock anomaly. -/
def find_unused (host : HostState) : List String → Option String
  | [] => none
  | d :: ds =>
    if !host.pid d then
      if !host.lock d then some d
      else find_unused host ds
    else find_unused host ds

/-- `NbdMount._allocate_nbd`: fail fast when the probe path is absent, else
return `/dev/` joined with the first unused device of the shuffled list,
setting the session error on either failure. -/
def allocate_nbd (host : HostState) (shuffled : List String) (s : NbdSession) :
    Option String × NbdSession :=
  if host.probe = false then
    (none, { s with error := "nbd unavailable: module not loaded" })
  else
    match find_unused host shuffled with
    | none => (none, { s with error := "No free nbd devices" })
    | some d => (some ("/dev/" ++ d), s)

/-- `NbdMount._inner_get_dev`: allocate a device, issue the connect, then
poll `timeout_nbd` times for the kernel pid-file; on success record the
device, clear the error and set `linked`; on timeout set the error and
attempt one best-effort disconnect whose own failure is only logged. -/
def inner_get_dev (env : NbdEnv) (s : NbdSession) : InnerResult :=
  match allocate_nbd env.host env.shuffled s with
  | (none, s1) =>
    { ret := false, session := s1, cmds := [], warnings := [] }
  | (some device, s1) =>
    if env.connectErr = "" then
      match (List.range env.timeout).find? (fun i => env.pidAt (basename device) i) with
      | some _ =>
        { ret := true,
          session := { s1 with device := some device, error := "", linked := true },
          cmds := [NbdCmd.connect device env.image_path],
          warnings := [] }
      | none =>
        { ret := false,
          session := { s1 with error := "nbd device " ++ device ++ " did not show up" },
          cmds := [NbdCmd.connect device env.image_path, NbdCmd.disconnect device],
          warnings :=
            if env.disconnectErr = "" then []
            else ["Detaching from erroneous nbd device returned error: " ++
              env.disconnectErr] }
    else
      { ret := false,
        session := { s1 with error := "qemu-nbd error: " ++ env.connectErr },
        cmds := [NbdCmd.connect device env.image_path],
        warnings := [] }

/-- Outcome of `unget_dev`: a normal return, or a process-execution failure
of the disconnect propagating out of the method, each with the session as
left behind and the commands issued. -/
inductive UngetResult where
  | ok : NbdSession → List NbdCmd → UngetResult
  | raised : String → NbdSession → List NbdCmd → UngetResult
deriving DecidableEq, Repr

/-- `NbdMount.unget_dev`: no-op unless linked; otherwise issue the
disconnect — a raise from it propagates before `linked` and `device` are
cleared — and on normal return clear `linked` and `device`. -/
def unget_dev (disconnectRaise : Option String) (s : NbdSession) : UngetResult :=
  if s.linked = false then UngetResult.ok s []
  else
    match disconnectRaise with
    | some e => UngetResult.raised e s [NbdCmd.disconnect (s.device.getD "")]
    | none =>
      UngetResult.ok { s with linked := false, device := none }
        [NbdCmd.disconnect (s.device.getD "")]

/-- True on disconnect commands. -/
def isDisconnect : NbdCmd → Bool
  | NbdCmd.disconnect _ => true
  | NbdCmd.connect _ _ => false

/-- Number of disconnect attempts among the issued commands. -/
def countDisconnects (cmds : List NbdCmd) : Nat :=
  (cmds.filter isDisconnect).length

/-! ## Concrete instances used by the witnesses -/

/-- A host with two devices of which `nbd0` carries a pid-file. -/
def hostW : HostState :=
  { probe := true
    devices := ["nbd0", "nbd1"]
    pid := fun d => d == "nbd0"
    lock := fun _ => false }

/-- A host where every device carries a lock file. -/
def hostLockedW : HostState :=
  { probe := true
    devices := ["nbd0", "nbd1"]
    pid := fun _ => false
    lock := fun _ => true }

/-- Fresh session. -/
def sessionW : NbdSession :=
  { device := none, linked := false, error := "" }

/-- A linked session holding `/dev/nbd1`. -/
def sessionLinkedW : NbdSession :=
  { device := some "/dev/nbd1", linked := true, error := "" }

/-- Environment whose pid-file never appears within the timeout. -/
def envTimeoutW : NbdEnv :=
  { host := hostW
    shuffled := ["nbd1", "nbd0"]
    image_path := "/tmp/image"
    connectErr := ""
    pidAt := fun _ _ => false
    timeout := 2
    disconnectErr := "" }

/-- Environment whose pid-file appears on the second poll iteration. -/
def envOkW : NbdEnv :=
  { host := hostW
    shuffled := ["nbd1", "nbd0"]
    image_path := "/tmp/image"
    connectErr := ""
    pidAt := fun _ i => i == 1
    timeout := 2
    disconnectErr := "" }

/-! ## Helper lemmas -/

/-- A successful boolean prefix test yields the suffix witness. -/
theorem listIsPrefixOf_exists {l1 l2 : List Char} (h : l1.isPrefixOf l2 = true) :
    ∃ t, l2 = l1 ++ t := by
  induction l1 generalizing l2 with
  | nil => exact ⟨l2, rfl⟩
  | cons a as ih =>
    cases l2 with
    | nil => simp [List.isPrefixOf] at h
    | cons b bs =>
      simp only [List.isPrefixOf, Bool.and_eq_true, beq_iff_eq] at h
      obtain ⟨t, ht⟩ := ih h.2
      exact ⟨t, by rw [ht, h.1]; rfl⟩

/-- A list is a boolean prefix of itself followed by anything. -/
theorem listIsPrefixOf_append (l t : List Char) : l.isPrefixOf (l ++ t) = true := by
  induction l with
  | nil => simp [List.isPrefixOf]
  | cons a as ih => simp [List.isPrefixOf, ih]

/-- Replacing the first occurrence of a leading pattern substitutes it and
keeps the remainder unchanged. -/
theorem replFirstAux_leading (c : Char) (cs new rest : List Char) :
    replFirstAux (c :: cs) new ((c :: cs) ++ rest) = new ++ rest := by
  have hp : (c :: cs).isPrefixOf (c :: (cs ++ rest)) = true := by
    exact listIsPrefixOf_append (c :: cs) rest
  simp only [List.cons_append, replFirstAux, List.append_eq, hp, if_true,
    List.length_cons, List.drop_succ_cons, List.drop_left]

/-- A string append with a non-empty left part is non-empty. -/
theorem strAppend_ne_empty (x y : String) (h : x.data ≠ []) : x ++ y ≠ "" := by
  intro hc
  have h2 : (x ++ y).data = x.data ++ y.data := by cases x; cases y; rfl
  rw [hc] at h2
  exact h (List.append_eq_nil.mp h2.symm).1

/-- The timeout error message on any device is a non-empty string. -/
theorem nbd_timeout_error_ne_empty (device : String) :
    "nbd device " ++ device ++ " did not show up" ≠ "" := by
  apply strAppend_ne_empty
  have h2 : ("nbd device " ++ device).data = "nbd device ".data ++ device.data := by
    cases device; rfl
  rw [h2]
  intro hc
  exact absurd (List.append_eq_nil.mp hc).1 (by decide)

/-! ## Claim theorems: path normalization and transports -/

/-- C5: when `path` starts with the glance mount, `_normalize_destination`
returns `path` with exactly the leading occurrence of the glance mount
replaced by the nova mount and the remainder unchanged; otherwise it raises
a metadata error. -/
theorem normalize_destination_spec (nova glance path : String) :
    (py_startswith path glance = true →
      ∃ rest : List Char, path.data = glance.data ++ rest ∧
        FileTransfer.normalize_destination nova glance path =
          Except.ok (String.mk (nova.data ++ rest))) ∧
    (py_startswith path glance = false →
      ∃ msg, FileTransfer.normalize_destination nova glance path =
        Except.error msg) := by
  constructor
  · intro h
    obtain ⟨rest, hrest⟩ := listIsPrefixOf_exists h
    refine ⟨rest, hrest, ?_⟩
    simp only [FileTransfer.normalize_destination, h, Bool.true_eq_false,
      if_false, Except.ok.injEq]
    cases hg : glance.data with
    | nil =>
      simp only [py_replace_first, hg]
      rw [hg] at hrest
      simp only [List.nil_append] at hrest
      rw [hrest]
    | cons c cs =>
      simp only [py_replace_first, hg]
      rw [hrest, hg, replFirstAux_leading]
  · intro h
    simp only [FileTransfer.normalize_destination, h, if_true]
    exact ⟨_, rfl⟩

/-- C5 witness: the spec example, replacing only the leading occurrence. -/
theorem normalize_destination_spec_witness :
    py_startswith "/x/x/file" "/x" = true ∧
    ((py_startswith "/x/x/file" "/x" = true →
      ∃ rest : List Char, ("/x/x/file" : String).data = ("/x" : String).data ++ rest ∧
        FileTransfer.normalize_destination "/a" "/x" "/x/x/file" =
          Except.ok (String.mk (("/a" : String).data ++ rest))) ∧
    (py_startswith "/x/x/file" "/x" = false →
      ∃ msg, FileTransfer.normalize_destination "/a" "/x" "/x/x/file" =
        Except.error msg)) :=
  ⟨by decide, normalize_destination_spec "/a" "/x" "/x/x/file"⟩

/-- C7: `RsyncDriver.copy_file` always passes the recursive and sparse
flags, and passes the compression flag exactly when compression is
requested. -/
theorem rsync_copy_file_flags (src dst : String) (compression : Bool)
    (hsrc : src ≠ "--compress") (hdst : dst ≠ "--compress") :
    (("--compress" ∈ RsyncDriver.copy_file src dst compression) ↔
      compression = true) ∧
    "-r" ∈ RsyncDriver.copy_file src dst compression ∧
    "--sparse" ∈ RsyncDriver.copy_file src dst compression := by
  have h1 : ¬ (("--compress" : String) = "rsync") := by decide
  have h2 : ¬ (("--compress" : String) = "-r") := by decide
  have h3 : ¬ (("--compress" : String) = "--sparse") := by decide
  have h4 : ¬ (("--compress" : String) = src) := fun hh => hsrc hh.symm
  have h5 : ¬ (("--compress" : String) = dst) := fun hh => hdst hh.symm
  cases compression <;>
    simp [RsyncDriver.copy_file, h1, h2, h3, h4, h5]

/-- C7 witness: compression requested on plain arguments. -/
theorem rsync_copy_file_flags_witness :
    ("a" : String) ≠ "--compress" ∧ ("b" : String) ≠ "--compress" ∧
    ((("--compress" ∈ RsyncDriver.copy_file "a" "b" true) ↔ true = true) ∧
      "-r" ∈ RsyncDriver.copy_file "a" "b" true ∧
      "--sparse" ∈ RsyncDriver.copy_file "a" "b" true) :=
  ⟨by decide, by decide, rsync_copy_file_flags "a" "b" true (by decide) (by decide)⟩

/-- C8: `RsyncDriver.remove_dir` performs exactly two rsync invocations in
order: the recursive deletion of the remote contents with
`--delete-excluded` against the empty temporary directory, then the
removal of the entry itself against its parent, including only its base
name and excluding everything else. -/
theorem rsync_remove_dir_two_phase (tempdir host dst : String) :
    RsyncDriver.remove_dir tempdir host dst =
      [["rsync", "--archive", "--delete-excluded",
        tempdir ++ "/",
        format_remote_path host dst],
       ["rsync", "--archive", "--delete",
        "--include", basename (normpath dst),
        "--exclude", "*",
        normpath tempdir ++ "/",
        format_remote_path host (dirname (normpath dst))]] ∧
    (RsyncDriver.remove_dir tempdir host dst).length = 2 :=
  ⟨rfl, rfl⟩

/-! ## Claim theorems: teardown error propagation -/

/-- C4 counterexample: a disconnect-style failure of the privileged umount
whose text has no recognized busy condition is not propagated by
`unmount_share`; it is logged through the exception logger and swallowed. -/
theorem unmount_share_error_not_raised :
    unmount_share (some "boom") = ShareResult.loggedException "boom" ∧
    ¬ unmount_share (some "boom") = ShareResult.raised "boom" := by
  decide

/-- C4 amended: `mount_share` re-raises a process-execution failure
unchanged unless its text contains the recognized busy condition, which is
downgraded to a log; `unget_dev` propagates a disconnect failure
unchanged; `unmount_share` never re-raises — its busy condition is
downgraded to a debug log and every other failure is logged through the
exception logger and swallowed. -/
theorem teardown_error_propagation (e : String) (s : NbdSession) :
    (strContains e ("Device or resource busy") = true →
      mount_share (some e) = ShareResult.loggedBusy) ∧
    (strContains e ("Device or resource busy") = false →
      mount_share (some e) = ShareResult.raised e) ∧
    (strContains e ("target is busy") = true →
      unmount_share (some e) = ShareResult.loggedBusy) ∧
    (strContains e ("target is busy") = false →
      unmount_share (some e) = ShareResult.loggedException e) ∧
    (s.linked = true →
      unget_dev (some e) s =
        UngetResult.raised e s [NbdCmd.disconnect (s.device.getD "")]) := by
  refine ⟨?_, ?_, ?_, ?_, ?_⟩ <;> intro h <;>
    simp [mount_share, unmount_share, unget_dev, h]

/-- C4 amended witness: a non-busy failure on a linked session. -/
theorem teardown_error_propagation_witness :
    sessionLinkedW.linked = true ∧
    strContains "boom" ("target is busy") = false ∧
    ((strContains "boom" ("Device or resource busy") = true →
      mount_share (some "boom") = ShareResult.loggedBusy) ∧
    (strContains "boom" ("Device or resource busy") = false →
      mount_share (some "boom") = ShareResult.raised "boom") ∧
    (strContains "boom" ("target is busy") = true →
      unmount_share (some "boom") = ShareResult.loggedBusy) ∧
    (strContains "boom" ("target is busy") = false →
      unmount_share (some "boom") = ShareResult.loggedException "boom") ∧
    (sessionLinkedW.linked = true →
      unget_dev (some "boom") sessionLinkedW =
        UngetResult.raised "boom" sessionLinkedW
          [NbdCmd.disconnect (sessionLinkedW.device.getD "")])) :=
  ⟨rfl, by decide, teardown_error_propagation "boom" sessionLinkedW⟩

/-! ## Claim theorems: unget_dev -/

/-- C9: when the disconnect issued by `unget_dev` raises a
process-execution failure, the failure propagates before the assignments,
so `linked` and `device` keep their prior values. -/
theorem unget_dev_raise_preserves_state (e : String) (s : NbdSession)
    (h : s.linked = true) :
    unget_dev (some e) s =
      UngetResult.raised e s [NbdCmd.disconnect (s.device.getD "")] := by
  simp [unget_dev, h]

/-- C9 witness: a raising disconnect on a linked session. -/
theorem unget_dev_raise_preserves_state_witness :
    sessionLinkedW.linked = true ∧
    unget_dev (some "fail") sessionLinkedW =
      UngetResult.raised "fail" sessionLinkedW
        [NbdCmd.disconnect (sessionLinkedW.device.getD "")] :=
  ⟨rfl, unget_dev_raise_preserves_state "fail" sessionLinkedW rfl⟩

/-- C6: `unget_dev` on an unlinked session issues no command and leaves the
session unchanged; on a linked session whose disconnect returns normally it
issues exactly one disconnect and clears `linked` and `device`. -/
theorem unget_dev_noop_and_clear (dr : Option String) (s : NbdSession) :
    (s.linked = false → unget_dev dr s = UngetResult.ok s []) ∧
    (s.linked = true → dr = none →
      ∃ s2 cmds, unget_dev dr s = UngetResult.ok s2 cmds ∧
        s2.linked = false ∧ s2.device = none ∧ countDisconnects cmds = 1) := by
  constructor
  · intro h
    simp [unget_dev, h]
  · intro h hdr
    subst hdr
    refine ⟨{ s with linked := false, device := none },
      [NbdCmd.disconnect (s.device.getD "")], ?_, rfl, rfl, rfl⟩
    simp [unget_dev, h]

/-- C6 witness: releasing a linked session with a clean disconnect. -/
theorem unget_dev_noop_and_clear_witness :
    sessionLinkedW.linked = true ∧
    ((sessionLinkedW.linked = false →
      unget_dev none sessionLinkedW = UngetResult.ok sessionLinkedW []) ∧
    (sessionLinkedW.linked = true → (none : Option String) = none →
      ∃ s2 cmds, unget_dev none sessionLinkedW = UngetResult.ok s2 cmds ∧
        s2.linked = false ∧ s2.device = none ∧ countDisconnects cmds = 1)) :=
  ⟨rfl, unget_dev_noop_and_clear none sessionLinkedW⟩

/-! ## Lemmas about device allocation -/

/-- A device returned by `_find_unused` is in the list and unused. -/
theorem find_unused_mem_unused {host : HostState} {l : List String} {d : String}
    (h : find_unused host l = some d) : d ∈ l ∧ unusedDev host d = true := by
  induction l with
  | nil => simp [find_unused] at h
  | cons a as ih =>
    cases hp : host.pid a with
    | true =>
      simp only [find_unused, hp, Bool.not_true, Bool.false_eq_true, if_false] at h
      obtain ⟨hm, hu⟩ := ih h
      exact ⟨List.mem_cons_of_mem _ hm, hu⟩
    | false =>
      cases hl : host.lock a with
      | true =>
        simp only [find_unused, hp, hl, Bool.not_false, Bool.not_true, if_true,
          Bool.false_eq_true, if_false] at h
        obtain ⟨hm, hu⟩ := ih h
        exact ⟨List.mem_cons_of_mem _ hm, hu⟩
      | false =>
        simp only [find_unused, hp, hl, Bool.not_false, if_true,
          Option.some.injEq] at h
        subst h
        exact ⟨List.mem_cons_self _ _, by simp [unusedDev, hp, hl]⟩

/-- When `_find_unused` finds nothing, no listed device is unused. -/
theorem find_unused_none_no_unused {host : HostState} {l : List String}
    (h : find_unused host l = none) : ∀ d ∈ l, unusedDev host d = false := by
  induction l with
  | nil => intro d hd; simp at hd
  | cons a as ih =>
    intro d hd
    cases hp : host.pid a with
    | true =>
      simp only [find_unused, hp, Bool.not_true, Bool.false_eq_true, if_false] at h
      rcases List.mem_cons.mp hd with hda | hdas
      · subst hda; simp [unusedDev, hp]
      · exact ih h d hdas
    | false =>
      cases hl : host.lock a with
      | true =>
        simp only [find_unused, hp, hl, Bool.not_false, Bool.not_true, if_true,
          Bool.false_eq_true, if_false] at h
        rcases List.mem_cons.mp hd with hda | hdas
        · subst hda; simp [unusedDev, hp, hl]
        · exact ih h d hdas
      | false =>
        simp [find_unused, hp, hl] at h

/-- `_allocate_nbd` never touches `linked` or `device`. -/
theorem allocate_nbd_state (host : HostState) (shuffled : List String)
    (s : NbdSession) :
    (allocate_nbd host shuffled s).2.linked = s.linked ∧
    (allocate_nbd host shuffled s).2.device = s.device := by
  unfold allocate_nbd
  by_cases h : host.probe = false
  · simp [h]
  · rcases hf : find_unused host shuffled with _ | d <;> simp [h, hf]

/-! ## Claim theorem: device allocation -/

/-- C1: with the probe path present, `_allocate_nbd` run on any shuffle of
the detected devices returns some unused device whenever one exists,
returns `None` with the exhaustion error whenever none is unused, and
never returns a device with a pid-file or a lock file. -/
theorem allocate_nbd_returns_unused (host : HostState) (shuffled : List String)
    (s : NbdSession) (hprobe : host.probe = true)
    (hperm : shuffled.Perm host.devices) :
    ((∃ d ∈ host.devices, unusedDev host d = true) →
      ∃ d, d ∈ host.devices ∧ unusedDev host d = true ∧
        (allocate_nbd host shuffled s).1 = some ("/dev/" ++ d)) ∧
    ((∀ d ∈ host.devices, unusedDev host d = false) →
      (allocate_nbd host shuffled s).1 = none ∧
      (allocate_nbd host shuffled s).2.error = "No free nbd devices") ∧
    (∀ p, (allocate_nbd host shuffled s).1 = some p →
      ∃ d, d ∈ host.devices ∧ unusedDev host d = true ∧ p = "/dev/" ++ d) := by
  rcases hfu : find_unused host shuffled with _ | d
  · have hnone := find_unused_none_no_unused hfu
    refine ⟨?_, ?_, ?_⟩
    · rintro ⟨d, hd, hu⟩
      have := hnone d (hperm.mem_iff.mpr hd)
      rw [hu] at this
      simp at this
    · intro _
      unfold allocate_nbd
      simp [hprobe, hfu]
    · intro p hp
      unfold allocate_nbd at hp
      simp [hprobe, hfu] at hp
  · obtain ⟨hmem, hu⟩ := find_unused_mem_unused hfu
    have hmemdev : d ∈ host.devices := hperm.mem_iff.mp hmem
    have halloc : allocate_nbd host shuffled s = (some ("/dev/" ++ d), s) := by
      unfold allocate_nbd
      simp [hprobe, hfu]
    refine ⟨fun _ => ⟨d, hmemdev, hu, by rw [halloc]⟩, fun hall => ?_, fun p hp => ?_⟩
    · have := hall d hmemdev
      rw [hu] at this
      simp at this
    · rw [halloc] at hp
      simp only [Option.some.injEq] at hp
      exact ⟨d, hmemdev, hu, hp.symm⟩

/-- C1 witness: a host with one busy and one free device, shuffled. -/
theorem allocate_nbd_returns_unused_witness :
    hostW.probe = true ∧
    (["nbd1", "nbd0"] : List String).Perm hostW.devices ∧
    (((∃ d ∈ hostW.devices, unusedDev hostW d = true) →
      ∃ d, d ∈ hostW.devices ∧ unusedDev hostW d = true ∧
        (allocate_nbd hostW ["nbd1", "nbd0"] sessionW).1 = some ("/dev/" ++ d)) ∧
    ((∀ d ∈ hostW.devices, unusedDev hostW d = false) →
      (allocate_nbd hostW ["nbd1", "nbd0"] sessionW).1 = none ∧
      (allocate_nbd hostW ["nbd1", "nbd0"] sessionW).2.error = "No free nbd devices") ∧
    (∀ p, (allocate_nbd hostW ["nbd1", "nbd0"] sessionW).1 = some p →
      ∃ d, d ∈ hostW.devices ∧ unusedDev hostW d = true ∧ p = "/dev/" ++ d)) :=
  ⟨rfl, by decide,
    allocate_nbd_returns_unused hostW ["nbd1", "nbd0"] sessionW rfl (by decide)⟩

/-! ## Branch equations for the claim protocol -/

/-- `_inner_get_dev` when allocation fails. -/
theorem inner_get_dev_alloc_none {env : NbdEnv} {s s1 : NbdSession}
    (hal : allocate_nbd env.host env.shuffled s = (none, s1)) :
    inner_get_dev env s = { ret := false, session := s1, cmds := [], warnings := [] } := by
  unfold inner_get_dev
  rw [hal]

/-- `_inner_get_dev` when the connect command reports an error. -/
theorem inner_get_dev_connect_err {env : NbdEnv} {s s1 : NbdSession} {device : String}
    (hal : allocate_nbd env.host env.shuffled s = (some device, s1))
    (hc : env.connectErr ≠ "") :
    inner_get_dev env s =
      { ret := false,
        session := { s1 with error := "qemu-nbd error: " ++ env.connectErr },
        cmds := [NbdCmd.connect device env.image_path],
        warnings := [] } := by
  unfold inner_get_dev
  rw [hal]
  simp [hc]

/-- `_inner_get_dev` when the pid-file shows up within the timeout. -/
theorem inner_get_dev_success {env : NbdEnv} {s s1 : NbdSession} {device : String}
    {i : Nat}
    (hal : allocate_nbd env.host env.shuffled s = (some device, s1))
    (hc : env.connectErr = "")
    (hfind : (List.range env.timeout).find? (fun j => env.pidAt (basename device) j) =
      some i) :
    inner_get_dev env s =
      { ret := true,
        session := { s1 with device := some device, error := "", linked := true },
        cmds := [NbdCmd.connect device env.image_path],
        warnings := [] } := by
  unfold inner_get_dev
  rw [hal]
  simp [hc, hfind]

/-- `_inner_get_dev` when the pid-file never shows up within the timeout. -/
theorem inner_get_dev_timeout_eq {env : NbdEnv} {s s1 : NbdSession} {device : String}
    (hal : allocate_nbd env.host env.shuffled s = (some device, s1))
    (hc : env.connectErr = "")
    (hfind : (List.range env.timeout).find? (fun j => env.pidAt (basename device) j) =
      none) :
    inner_get_dev env s =
      { ret := false,
        session := { s1 with error := "nbd device " ++ device ++ " did not show up" },
        cmds := [NbdCmd.connect device env.image_path, NbdCmd.disconnect device],
        warnings :=
          if env.disconnectErr = "" then []
          else ["Detaching from erroneous nbd device returned error: " ++
            env.disconnectErr] } := by
  unfold inner_get_dev
  rw [hal]
  simp [hc, hfind]

/-! ## Claim theorems: claim protocol -/

/-- C10: whenever `_inner_get_dev` returns False, `linked` and `device`
keep their entry values; only the error field is touched on failure. -/
theorem inner_get_dev_failure_frame (env : NbdEnv) (s : NbdSession)
    (h : (inner_get_dev env s).ret = false) :
    (inner_get_dev env s).session.linked = s.linked ∧
    (inner_get_dev env s).session.device = s.device := by
  have hstate := allocate_nbd_state env.host env.shuffled s
  rcases hal : allocate_nbd env.host env.shuffled s with ⟨od, s1⟩
  rw [hal] at hstate
  cases od with
  | none =>
    rw [inner_get_dev_alloc_none hal]
    exact hstate
  | some device =>
    by_cases hc : env.connectErr = ""
    · rcases hfind : (List.range env.timeout).find?
        (fun j => env.pidAt (basename device) j) with _ | i
      · rw [inner_get_dev_timeout_eq hal hc hfind]
        exact hstate
      · rw [inner_get_dev_success hal hc hfind] at h
        simp at h
    · rw [inner_get_dev_connect_err hal hc]
      exact hstate

/-- C10 witness: a run whose pid-file never appears returns False with
`linked` and `device` untouched. -/
theorem inner_get_dev_failure_frame_witness :
    (inner_get_dev envTimeoutW sessionW).ret = false ∧
    ((inner_get_dev envTimeoutW sessionW).session.linked = sessionW.linked ∧
      (inner_get_dev envTimeoutW sessionW).session.device = sessionW.device) :=
  ⟨by decide, inner_get_dev_failure_frame envTimeoutW sessionW (by decide)⟩

/-- C2: on a successfully issued connect whose pid-file never appears
within the timeout, `_inner_get_dev` returns False, sets a non-empty
session error, issues exactly one disconnect attempt, and its observable
outcome does not depend on whether that disconnect itself fails. -/
theorem inner_get_dev_timeout_path (env : NbdEnv) (s : NbdSession) (d : String)
    (hprobe : env.host.probe = true)
    (hfind : find_unused env.host env.shuffled = some d)
    (hconn : env.connectErr = "")
    (hpid : ∀ i, i < env.timeout → env.pidAt (basename ("/dev/" ++ d)) i = false) :
    (inner_get_dev env s).ret = false ∧
    (inner_get_dev env s).session.error ≠ "" ∧
    countDisconnects (inner_get_dev env s).cmds = 1 ∧
    (∀ e, (inner_get_dev { env with disconnectErr := e } s).ret =
        (inner_get_dev env s).ret ∧
      (inner_get_dev { env with disconnectErr := e } s).session =
        (inner_get_dev env s).session ∧
      (inner_get_dev { env with disconnectErr := e } s).cmds =
        (inner_get_dev env s).cmds) := by
  have halloc : allocate_nbd env.host env.shuffled s = (some ("/dev/" ++ d), s) := by
    unfold allocate_nbd
    simp [hprobe, hfind]
  have hnone : (List.range env.timeout).find?
      (fun j => env.pidAt (basename ("/dev/" ++ d)) j) = none := by
    apply List.find?_eq_none.mpr
    intro i hi
    simp only [List.mem_range] at hi
    simp [hpid i hi]
  have hres := inner_get_dev_timeout_eq halloc hconn hnone
  refine ⟨by rw [hres], by rw [hres]; exact nbd_timeout_error_ne_empty _,
    by rw [hres]; rfl, ?_⟩
  intro e
  have hres2 := @inner_get_dev_timeout_eq { env with disconnectErr := e } s s
    ("/dev/" ++ d) halloc hconn hnone
  rw [hres, hres2]
  exact ⟨rfl, rfl, rfl⟩

/-- C2 witness: a two-second timeout with a pid-file that never appears. -/
theorem inner_get_dev_timeout_path_witness :
    envTimeoutW.host.probe = true ∧
    find_unused envTimeoutW.host envTimeoutW.shuffled = some "nbd1" ∧
    envTimeoutW.connectErr = "" ∧
    (∀ i, i < envTimeoutW.timeout →
      envTimeoutW.pidAt (basename ("/dev/" ++ "nbd1")) i = false) ∧
    ((inner_get_dev envTimeoutW sessionW).ret = false ∧
     (inner_get_dev envTimeoutW sessionW).session.error ≠ "" ∧
     countDisconnects (inner_get_dev envTimeoutW sessionW).cmds = 1 ∧
     (∀ e, (inner_get_dev { envTimeoutW with disconnectErr := e } sessionW).ret =
         (inner_get_dev envTimeoutW sessionW).ret ∧
       (inner_get_dev { envTimeoutW with disconnectErr := e } sessionW).session =
         (inner_get_dev envTimeoutW sessionW).session ∧
       (inner_get_dev { envTimeoutW with disconnectErr := e } sessionW).cmds =
         (inner_get_dev envTimeoutW sessionW).cmds)) :=
  ⟨rfl, by decide, rfl, by decide,
    inner_get_dev_timeout_path envTimeoutW sessionW "nbd1" rfl (by decide) rfl
      (by decide)⟩

/-- C3: the invariant that a linked session holds a device is preserved by
`_inner_get_dev` and by both outcomes of `unget_dev`, and `linked` can
switch from false to true only after the kernel pid-file of the claimed
device — the one recorded in the session — has been observed inside the
polling window. -/
theorem session_invariant_preserved (env : NbdEnv) (s : NbdSession)
    (dr : Option String)
    (hinv : s.linked = true → s.device.isSome = true) :
    ((inner_get_dev env s).session.linked = true →
      (inner_get_dev env s).session.device.isSome = true) ∧
    (∀ s2 cmds, unget_dev dr s = UngetResult.ok s2 cmds →
      s2.linked = true → s2.device.isSome = true) ∧
    (∀ e s2 cmds, unget_dev dr s = UngetResult.raised e s2 cmds →
      s2.linked = true → s2.device.isSome = true) ∧
    (s.linked = false → (inner_get_dev env s).session.linked = true →
      ∃ device i, (inner_get_dev env s).session.device = some device ∧
        i < env.timeout ∧ env.pidAt (basename device) i = true) := by
  have hug_ok : ∀ s2 cmds, unget_dev dr s = UngetResult.ok s2 cmds →
      s2.linked = true → s2.device.isSome = true := by
    intro s2 cmds h hl
    unfold unget_dev at h
    by_cases hlk : s.linked = false
    · simp only [hlk, if_true] at h
      obtain ⟨hs, _⟩ := UngetResult.ok.inj h
      rw [← hs] at hl
      rw [hlk] at hl
      simp at hl
    · cases dr with
      | some e => simp [hlk] at h
      | none =>
        simp only [hlk, if_false] at h
        obtain ⟨hs, _⟩ := UngetResult.ok.inj h
        rw [← hs] at hl
        simp at hl
  have hug_raised : ∀ e s2 cmds, unget_dev dr s = UngetResult.raised e s2 cmds →
      s2.linked = true → s2.device.isSome = true := by
    intro e s2 cmds h hl
    unfold unget_dev at h
    by_cases hlk : s.linked = false
    · simp [hlk] at h
    · cases dr with
      | none => simp [hlk] at h
      | some e2 =>
        simp only [hlk, if_false] at h
        obtain ⟨_, hs, _⟩ := UngetResult.raised.inj h
        rw [← hs]
        rw [← hs] at hl
        exact hinv hl
  have hframe : ∀ (hsl : (inner_get_dev env s).session.linked = s.linked)
      (hsd : (inner_get_dev env s).session.device = s.device),
      ((inner_get_dev env s).session.linked = true →
        (inner_get_dev env s).session.device.isSome = true) ∧
      (s.linked = false → (inner_get_dev env s).session.linked = true →
        ∃ device i, (inner_get_dev env s).session.device = some device ∧
          i < env.timeout ∧ env.pidAt (basename device) i = true) := by
    intro hsl hsd
    constructor
    · intro hl
      rw [hsd]
      exact hinv (hsl.symm.trans hl)
    · intro hf hl
      have hcontr : s.linked = true := hsl.symm.trans hl
      rw [hf] at hcontr
      simp at hcontr
  have hstate := allocate_nbd_state env.host env.shuffled s
  rcases hal : allocate_nbd env.host env.shuffled s with ⟨od, s1⟩
  rw [hal] at hstate
  cases od with
  | none =>
    have he := inner_get_dev_alloc_none hal
    have hsl : (inner_get_dev env s).session.linked = s.linked := by
      rw [he]; exact hstate.1
    have hsd : (inner_get_dev env s).session.device = s.device := by
      rw [he]; exact hstate.2
    exact ⟨(hframe hsl hsd).1, hug_ok, hug_raised, (hframe hsl hsd).2⟩
  | some device =>
    by_cases hc : env.connectErr = ""
    · rcases hfind : (List.range env.timeout).find?
        (fun j => env.pidAt (basename device) j) with _ | i
      · have he := inner_get_dev_timeout_eq hal hc hfind
        have hsl : (inner_get_dev env s).session.linked = s.linked := by
          rw [he]; exact hstate.1
        have hsd : (inner_get_dev env s).session.device = s.device := by
          rw [he]; exact hstate.2
        exact ⟨(hframe hsl hsd).1, hug_ok, hug_raised, (hframe hsl hsd).2⟩
      · have he := inner_get_dev_success hal hc hfind
        refine ⟨?_, hug_ok, hug_raised, ?_⟩
        · intro _
          rw [he]
          rfl
        · intro _ _
          have hp := List.find?_some hfind
          have hm := List.mem_of_find?_eq_some hfind
          exact ⟨device, i, by rw [he], List.mem_range.mp hm, hp⟩
    · have he := inner_get_dev_connect_err hal hc
      have hsl : (inner_get_dev env s).session.linked = s.linked := by
        rw [he]; exact hstate.1
      have hsd : (inner_get_dev env s).session.device = s.device := by
        rw [he]; exact hstate.2
      exact ⟨(hframe hsl hsd).1, hug_ok, hug_raised, (hframe hsl hsd).2⟩

/-- C3 witness: a fresh session, a clean release, and a successful claim
whose pid-file shows up on the second poll. -/
theorem session_invariant_preserved_witness :
    (sessionW.linked = true → sessionW.device.isSome = true) ∧
    (((inner_get_dev envOkW sessionW).session.linked = true →
      (inner_get_dev envOkW sessionW).session.device.isSome = true) ∧
    (∀ s2 cmds, unget_dev none sessionW = UngetResult.ok s2 cmds →
      s2.linked = true → s2.device.isSome = true) ∧
    (∀ e s2 cmds, unget_dev none sessionW = UngetResult.raised e s2 cmds →
      s2.linked = true → s2.device.isSome = true) ∧
    (sessionW.linked = false → (inner_get_dev envOkW sessionW).session.linked = true →
      ∃ device i, (inner_get_dev envOkW sessionW).session.device = some device ∧
        i < envOkW.timeout ∧ envOkW.pidAt (basename device) i = true)) :=
  ⟨by decide, session_invariant_preserved envOkW sessionW none (by decide)⟩

/-- C7 counterexample: with a source argument that is itself the literal
compression flag, the built command contains that flag even though
compression was not requested. -/
theorem rsync_copy_file_flags_counterexample :
    ¬ (("--compress" ∈ RsyncDriver.copy_file "--compress" "b" false) ↔
      false = true) := by
  decide
